import Mathlib

/-!
Shallow embedding of the async job submission and polling logic of
src/app.py (Subhagatoadak/marketer).

The embedded functions:
* send_generation_request (lines 43-68): header/file preparation on the
  caller-supplied params dict, the multipart placeholder, and the
  response.ok check.
* send_async_generation_request (lines 70-110): the same preparation, the
  JSON id extraction, and the poll loop with a WORKER_TIMEOUT budget,
  10-second sleeps and a timeout check placed after each sleep.
* generate_image_to_video (lines 344-405): id extraction with a falsy
  check, the 64-character id-length validation, and a poll loop with
  10-second sleeps and no timeout at all.

Network responses are modelled as explicit values handed to the functions:
a submission response carries an HTTP status code, its text and the value
of the JSON id field; poll responses are an infinite sequence indexed by
attempt number. Wall-clock time is idealised: polls are instantaneous and
each time.sleep(10) advances time by 10 seconds, which is exactly the
quantity the source compares against the timeout.
-/

namespace Marketer

/-- A Python value as it appears in the params/files dicts of app.py:
a string, a number, an in-memory file-like object, or the result of
open(path, "rb"). -/
inductive PyValue where
  | str (s : String)
  | num (n : Int)
  | fileObj (data : String)
  | openedFile (path : String)
  deriving DecidableEq, Repr

/-- A Python dict with string keys, as an association list (keys unique in
every dict the source builds). -/
abbrev Dict := List (String × PyValue)

/-- params.pop(k, None): the value stored under k, if any, and the dict
with that key removed. -/
def dictPop (d : Dict) (k : String) : Option PyValue × Dict :=
  match d.lookup k with
  | none => (none, d)
  | some v => (some v, d.filter (fun kv => kv.fst != k))

/-- files[k] = v on a Python dict: replace the entry when the key is
present, append it otherwise. -/
def dictInsert (d : Dict) (k : String) (v : PyValue) : Dict :=
  if (d.lookup k).isSome then
    d.map (fun kv => if kv.fst = k then (k, v) else kv)
  else
    d ++ [(k, v)]

/-- The truth of the Python test x is not None and x != "" applied to an
optional dict value. -/
def presentNonEmpty : Option PyValue → Bool
  | none => false
  | some v => v != PyValue.str ""

/-- Lines 62-63 and 86-87: if len(files) == 0, substitute the dict
holding the single placeholder entry none mapped to the empty string. -/
def placeholderIfEmpty (files : Dict) : Dict :=
  if files.isEmpty then [("none", PyValue.str "")] else files

/-- Lines 48-63 of send_generation_request: default files to an empty
dict, pop image and mask out of params, open string values as files and
add file objects directly, and substitute the placeholder empty part when
no attachment ended up in files. Returns the files dict to be sent and
the params dict as the caller observes it afterwards. -/
def send_generation_request_files (params : Dict) (files0 : Option Dict) :
    Dict × Dict :=
  let files1 := files0.getD []
  let pi := dictPop params "image"
  let pm := dictPop pi.2 "mask"
  let files2 :=
    match pi.1 with
    | some v =>
        if v != PyValue.str "" then
          match v with
          | PyValue.str p => dictInsert files1 "image" (PyValue.openedFile p)
          | _ => dictInsert files1 "image" v
        else files1
    | none => files1
  let files3 :=
    match pm.1 with
    | some v =>
        if v != PyValue.str "" then
          match v with
          | PyValue.str p => dictInsert files2 "mask" (PyValue.openedFile p)
          | _ => dictInsert files2 "mask" v
        else files2
    | none => files2
  (placeholderIfEmpty files3, pm.2)

/-- Lines 75-87 of send_async_generation_request: the same pop sequence,
but file values are inserted as given (both branches of the hasattr test
assign the same value), and the same placeholder empty part. -/
def send_async_generation_request_files (params : Dict) (files0 : Option Dict) :
    Dict × Dict :=
  let files1 := files0.getD []
  let pi := dictPop params "image"
  let pm := dictPop pi.2 "mask"
  let files2 :=
    match pi.1 with
    | some v => if v != PyValue.str "" then dictInsert files1 "image" v else files1
    | none => files1
  let files3 :=
    match pm.1 with
    | some v => if v != PyValue.str "" then dictInsert files2 "mask" v else files2
    | none => files2
  (placeholderIfEmpty files3, pm.2)

/-- An HTTP response to a poll GET: its status code and its text/content. -/
structure Response where
  statusCode : Nat
  body : String
  deriving DecidableEq, Repr

/-- requests.Response.ok: true exactly when the status code is below 400. -/
def respOk (status : Nat) : Bool := status < 400

/-- An HTTP response to the submission POST: status code, text, and the
value of the id field of its JSON body (none when the field is absent). -/
structure SubmitResponse where
  statusCode : Nat
  text : String
  idField : Option String
  deriving DecidableEq, Repr

/-- The errors the embedded code can raise. remoteRejection is the
exception HTTP status: text raised on a not-ok response, protocolError
the missing-id exception, and timeoutExceeded carries the number of
seconds interpolated into the message Timeout after N seconds. -/
inductive JobError where
  | remoteRejection (status : Nat) (body : String)
  | protocolError (msg : String)
  | timeoutExceeded (seconds : Nat)
  deriving DecidableEq, Repr

/-- Lines 89-95 of send_async_generation_request: raise on a not-ok
submission response, raise when the JSON id field is absent (is None),
otherwise hand the id string on to the poll loop. -/
def send_async_generation_request_submit (resp : SubmitResponse) :
    Except JobError String :=
  if ¬ respOk resp.statusCode then
    Except.error (JobError.remoteRejection resp.statusCode resp.text)
  else
    match resp.idField with
    | none => Except.error (JobError.protocolError "Expected id in async response")
    | some id => Except.ok id

/-- Lines 66-68 of send_generation_request: raise the exception HTTP
status: text on a not-ok response, otherwise hand the response back. -/
def send_generation_request_check (resp : Response) : Except JobError Response :=
  if ¬ respOk resp.statusCode then
    Except.error (JobError.remoteRejection resp.statusCode resp.body)
  else Except.ok resp

/-- The three job states of the spec data model. -/
inductive JobStatus where
  | pending
  | complete
  | failed
  deriving DecidableEq, Repr

/-- How lines 103-106 of send_async_generation_request classify a poll
status code: a not-ok response (400 and above) raises, any other code
different from 202 breaks out of the loop as the final result, and 202
keeps the loop pending. -/
def asyncPollClassify (status : Nat) : JobStatus :=
  if ¬ respOk status then JobStatus.failed
  else if status ≠ 202 then JobStatus.complete
  else JobStatus.pending

/-- How lines 389-396 of generate_image_to_video classify a poll status
code: 202 is in-progress, 200 completes, anything else raises. -/
def i2vPollClassify (status : Nat) : JobStatus :=
  if status = 202 then JobStatus.pending
  else if status = 200 then JobStatus.complete
  else JobStatus.failed

/-- The observable outcome of one run of a poll loop: the returned
response or raised error, the number of GET requests issued, the number
of time.sleep(10) calls performed, and the elapsed time in seconds
(time.time() - start) at the moment of return or raise. -/
structure PollRun where
  outcome : Except JobError Response
  polls : Nat
  sleeps : Nat
  elapsed : Nat
  deriving Repr

/-- Lines 98-110 of send_async_generation_request, from a state where
elapsed seconds have passed and the next GET is attempt number i: poll;
raise on a not-ok response; break with the response on any other non-202
code; otherwise sleep 10 seconds and raise Timeout after timeout seconds
when the elapsed time now exceeds the timeout, else loop. -/
def send_async_generation_request_poll_from (responses : Nat → Response)
    (timeout : Nat) (elapsed i : Nat) : PollRun :=
  let r := responses i
  if ¬ respOk r.statusCode then
    ⟨Except.error (JobError.remoteRejection r.statusCode r.body), 1, 0, elapsed⟩
  else if r.statusCode ≠ 202 then
    ⟨Except.ok r, 1, 0, elapsed⟩
  else if h : timeout < elapsed + 10 then
    ⟨Except.error (JobError.timeoutExceeded timeout), 1, 1, elapsed + 10⟩
  else
    let rest := send_async_generation_request_poll_from responses timeout (elapsed + 10) (i + 1)
    ⟨rest.outcome, rest.polls + 1, rest.sleeps + 1, rest.elapsed⟩
termination_by timeout - elapsed
decreasing_by simp_wf; omega

/-- The poll loop of send_async_generation_request started at line 97-98:
elapsed time zero, first attempt. -/
def send_async_generation_request_poll (responses : Nat → Response)
    (timeout : Nat) : PollRun :=
  send_async_generation_request_poll_from responses timeout 0 0

/-- The observable outcome of one run of generate_image_to_video. -/
inductive I2VOutcome where
  | noId
  | badIdLength (id : String)
  | videoSaved (content : String)
  | pollError (body : String)
  | stillRunning
  deriving DecidableEq, Repr

/-- A run of the image-to-video code: its outcome, the number of poll GET
requests issued and the number of time.sleep(10) calls performed. -/
structure I2VRun where
  outcome : I2VOutcome
  polls : Nat
  sleeps : Nat
  deriving DecidableEq, Repr

/-- Lines 381-396 of generate_image_to_video: poll; on 202 sleep 10
seconds and loop, on 200 break and save the response content, on any
other code raise with the response JSON. The source loop has no timeout
check and no fuel: the fuel argument is a modelling device, and running
out of fuel means the loop is still running after that many attempts. -/
def generate_image_to_video_poll (responses : Nat → Response) :
    Nat → Nat → I2VRun
  | 0, _ => ⟨I2VOutcome.stillRunning, 0, 0⟩
  | fuel + 1, i =>
      let r := responses i
      if r.statusCode = 202 then
        let rest := generate_image_to_video_poll responses fuel (i + 1)
        ⟨rest.outcome, rest.polls + 1, rest.sleeps + 1⟩
      else if r.statusCode = 200 then
        ⟨I2VOutcome.videoSaved r.body, 1, 0⟩
      else
        ⟨I2VOutcome.pollError r.body, 1, 0⟩

/-- Lines 369-397 of generate_image_to_video: extract the id with
response.json().get("id"), report and return None when the id is falsy
(absent or the empty string), report and return None when its length is
not exactly 64, and otherwise run the poll loop and save the video
content. -/
def generate_image_to_video (idField : Option String)
    (responses : Nat → Response) (fuel : Nat) : I2VRun :=
  match idField with
  | none => ⟨I2VOutcome.noId, 0, 0⟩
  | some id =>
      if id = "" then ⟨I2VOutcome.noId, 0, 0⟩
      else if id.length ≠ 64 then ⟨I2VOutcome.badIdLength id, 0, 0⟩
      else generate_image_to_video_poll responses fuel 0

/-- The poll-response sequence of a status endpoint that answers 202
in-progress on every attempt. -/
def all202 : Nat → Response := fun _ => ⟨202, "in-progress"⟩

/-- A params dict as generate_control_sketch_stability builds it, with an
image entry and a scalar field. -/
def demoParams : Dict :=
  [("image", PyValue.str "temp_sketch_0.png"), ("prompt", PyValue.str "p")]

theorem dictPop_fst (d : Dict) (k : String) : (dictPop d k).1 = d.lookup k := by
  unfold dictPop
  cases h : d.lookup k <;> simp

theorem lookup_none_filter (k : String) : ∀ d : Dict, d.lookup k = none →
    d.filter (fun kv => kv.fst != k) = d
  | [], _ => rfl
  | (ka, va) :: t, h => by
      by_cases hk : k = ka
      · simp [List.lookup, hk] at h
      · have h1 : (k == ka) = false := beq_eq_false_iff_ne.mpr hk
        simp only [List.lookup, h1] at h
        have h2 : (ka != k) = true := bne_iff_ne.mpr (Ne.symm hk)
        simp only [List.filter_cons, h2, if_pos]
        rw [lookup_none_filter k t h]

theorem dictPop_snd (d : Dict) (k : String) :
    (dictPop d k).2 = d.filter (fun kv => kv.fst != k) := by
  unfold dictPop
  cases h : d.lookup k with
  | none => simpa using (lookup_none_filter k d h).symm
  | some v => rfl

theorem lookup_filter_ne (k q : String) (h : (q == k) = false) (d : Dict) :
    (d.filter (fun kv => kv.fst != k)).lookup q = d.lookup q := by
  induction d with
  | nil => rfl
  | cons a t ih =>
      obtain ⟨ka, va⟩ := a
      by_cases hk : ka = k
      · have hf : (ka != k) = false := by simp [hk]
        have hq2 : (q == ka) = false := by rw [hk]; exact h
        simp [List.filter_cons, hf, List.lookup, hq2, ih]
      · have hf : (ka != k) = true := bne_iff_ne.mpr hk
        cases hq : q == ka
        · simp [List.filter_cons, hf, List.lookup, hq, ih]
        · simp [List.filter_cons, hf, List.lookup, hq]

theorem dictPop_lookup_ne (d : Dict) (k q : String) (h : (q == k) = false) :
    (dictPop d k).2.lookup q = d.lookup q := by
  unfold dictPop
  cases hl : d.lookup k with
  | none => rfl
  | some v => simpa using lookup_filter_ne k q h d

/-- Under an all-202 response sequence the async poll loop, started with
elapsed seconds on the clock, performs one sleep per remaining 10-second
slice of the budget plus one and then raises the timeout exception. -/
theorem poll_from_all202 (responses : Nat → Response) (timeout : Nat)
    (h202 : ∀ i, (responses i).statusCode = 202) :
    ∀ d e i, timeout ≤ e + d → e ≤ timeout →
      send_async_generation_request_poll_from responses timeout e i =
        ⟨Except.error (JobError.timeoutExceeded timeout),
         (timeout - e) / 10 + 1, (timeout - e) / 10 + 1,
         e + 10 * ((timeout - e) / 10 + 1)⟩ := by
  intro d
  induction d with
  | zero =>
      intro e i h1 h2
      have he : e = timeout := by omega
      unfold send_async_generation_request_poll_from
      simp [h202 i, respOk, he]
  | succ d ih =>
      intro e i h1 h2
      unfold send_async_generation_request_poll_from
      by_cases h : timeout < e + 10
      · simp [h202 i, respOk, h]
        omega
      · rw [ih (e + 10) (i + 1) (by omega) (by omega)]
        simp [respOk, h202 i, h]
        omega

/-- When the first k responses starting at attempt i are 202 and attempt
i + k is a 4xx/5xx response reached within the budget, the async poll
loop raises the rejection exception of attempt i + k after exactly k + 1
polls and k sleeps. -/
theorem poll_from_reject (responses : Nat → Response) (timeout : Nat) :
    ∀ k e i, (∀ j, j < k → (responses (i + j)).statusCode = 202) →
      400 ≤ (responses (i + k)).statusCode → e + 10 * k ≤ timeout →
      send_async_generation_request_poll_from responses timeout e i =
        ⟨Except.error (JobError.remoteRejection (responses (i + k)).statusCode
            (responses (i + k)).body),
         k + 1, k, e + 10 * k⟩ := by
  intro k
  induction k with
  | zero =>
      intro e i h202 hbad he
      have hnk : ¬ respOk (responses i).statusCode = true := by
        simp only [Nat.add_zero] at hbad
        simp [respOk]; omega
      unfold send_async_generation_request_poll_from
      simp [hnk]
  | succ k ih =>
      intro e i h202 hbad he
      have h0 : (responses i).statusCode = 202 := by
        simpa using h202 0 (Nat.succ_pos k)
      have hnt : ¬ timeout < e + 10 := by omega
      unfold send_async_generation_request_poll_from
      rw [ih (e + 10) (i + 1)
            (fun j hj => by
              have := h202 (j + 1) (by omega)
              simpa [Nat.add_assoc, Nat.add_comm 1 j] using this)
            (by
              have hs : i + 1 + k = i + (k + 1) := by omega
              rw [hs]; exact hbad)
            (by omega)]
      have hs : i + 1 + k = i + (k + 1) := by omega
      simp [respOk, h0, hnt, hs]
      omega

/-- The image-to-video analogue of the rejection lemma: with k leading
202 responses and a terminal non-202 non-200 response at attempt i + k,
the loop raises the response JSON after k + 1 polls and k sleeps. -/
theorem i2v_poll_reject (responses : Nat → Response) :
    ∀ k fuel i, k < fuel → (∀ j, j < k → (responses (i + j)).statusCode = 202) →
      (responses (i + k)).statusCode ≠ 202 → (responses (i + k)).statusCode ≠ 200 →
      generate_image_to_video_poll responses fuel i =
        ⟨I2VOutcome.pollError (responses (i + k)).body, k + 1, k⟩ := by
  intro k
  induction k with
  | zero =>
      intro fuel i hf h202 hb1 hb2
      obtain ⟨f, rfl⟩ : ∃ f, fuel = f + 1 := ⟨fuel - 1, by omega⟩
      simp only [Nat.add_zero] at hb1 hb2
      unfold generate_image_to_video_poll
      simp [hb1, hb2]
  | succ k ih =>
      intro fuel i hf h202 hb1 hb2
      obtain ⟨f, rfl⟩ : ∃ f, fuel = f + 1 := ⟨fuel - 1, by omega⟩
      have h0 : (responses i).statusCode = 202 := by
        simpa using h202 0 (Nat.succ_pos k)
      have hshift : i + 1 + k = i + (k + 1) := by omega
      unfold generate_image_to_video_poll
      rw [ih f (i + 1) (by omega)
            (fun j hj => by
              have := h202 (j + 1) (by omega)
              simpa [Nat.add_assoc, Nat.add_comm 1 j] using this)
            (by rw [hshift]; exact hb1)
            (by rw [hshift]; exact hb2)]
      simp [h0, hshift]

/-- Under an all-202 response sequence the image-to-video poll loop never
reaches a terminal state, whatever fuel it is given. -/
theorem i2v_poll_all202_still (responses : Nat → Response)
    (h202 : ∀ i, (responses i).statusCode = 202) :
    ∀ fuel i, (generate_image_to_video_poll responses fuel i).outcome
      = I2VOutcome.stillRunning := by
  intro fuel
  induction fuel with
  | zero => intro i; rfl
  | succ f ih =>
      intro i
      unfold generate_image_to_video_poll
      simp [h202 i, ih (i + 1)]

/-- Claim C1, as the spec states it, fails on the code: in
generate_image_to_video the poll loop has no timeout check at all, so
under an all-202 response sequence it is still in progress after 60
polls and 60 sleeps, 600 elapsed seconds, far past the 500-second
default budget plus one interval, and no timeout failure ever occurs. -/
theorem c1_counterexample :
    (generate_image_to_video_poll all202 60 0).outcome = I2VOutcome.stillRunning
    ∧ (generate_image_to_video_poll all202 60 0).sleeps = 60
    ∧ (generate_image_to_video_poll all202 60 0).polls = 60 := by
  decide

/-- Claim C1 (amended): under an all-202 response sequence, the poll loop
of send_async_generation_request always terminates, failing with the
timeout error once elapsed time passes the configured timeout and
exceeding the timeout by at most one 10-second interval; the poll loop of
generate_image_to_video, by contrast, has no timeout and never reaches a
terminal state however long it runs. -/
theorem c1_all202_timeout_behaviour (responses : Nat → Response) (timeout : Nat)
    (h202 : ∀ i, (responses i).statusCode = 202) :
    (send_async_generation_request_poll responses timeout).outcome
        = Except.error (JobError.timeoutExceeded timeout)
    ∧ timeout < (send_async_generation_request_poll responses timeout).elapsed
    ∧ (send_async_generation_request_poll responses timeout).elapsed ≤ timeout + 10
    ∧ ∀ fuel, (generate_image_to_video_poll responses fuel 0).outcome
        = I2VOutcome.stillRunning := by
  have h := poll_from_all202 responses timeout h202 timeout 0 0 (by omega) (by omega)
  unfold send_async_generation_request_poll
  rw [h]
  refine ⟨rfl, ?_, ?_, fun fuel => i2v_poll_all202_still responses h202 fuel 0⟩
  · show timeout < 0 + 10 * ((timeout - 0) / 10 + 1)
    omega
  · show 0 + 10 * ((timeout - 0) / 10 + 1) ≤ timeout + 10
    omega

/-- Witness for C1 at the constant-202 endpoint with a 25-second budget. -/
theorem c1_all202_timeout_behaviour_witness :
    (send_async_generation_request_poll all202 25).outcome
        = Except.error (JobError.timeoutExceeded 25)
    ∧ 25 < (send_async_generation_request_poll all202 25).elapsed
    ∧ (send_async_generation_request_poll all202 25).elapsed ≤ 35
    ∧ (generate_image_to_video_poll all202 7 0).outcome = I2VOutcome.stillRunning := by
  have h := c1_all202_timeout_behaviour all202 25 (fun i => rfl)
  exact ⟨h.1, h.2.1, h.2.2.1, h.2.2.2 7⟩

/-- Claim C2, as the spec states it, fails on the code: the check at line
94 only compares the id against None, so a success response whose id
field holds the empty string makes send_async_generation_request proceed
with an empty handle instead of failing. -/
theorem c2_counterexample :
    send_async_generation_request_submit ⟨200, "accepted", some ""⟩ = Except.ok ""
    ∧ String.length "" = 0 :=
  ⟨rfl, rfl⟩

/-- Claim C2 (amended): in send_async_generation_request, a not-ok
submission response raises the HTTP exception, a success response without
the id field raises the protocol exception, and any present id string is
handed on exactly as received, the empty string included, so an empty
handle can be returned; generate_image_to_video is the variant that also
rejects an empty id. -/
theorem c2_submit_id_passthrough (resp : SubmitResponse) :
    (400 ≤ resp.statusCode →
      send_async_generation_request_submit resp =
        Except.error (JobError.remoteRejection resp.statusCode resp.text))
    ∧ (resp.statusCode < 400 → resp.idField = none →
      send_async_generation_request_submit resp =
        Except.error (JobError.protocolError "Expected id in async response"))
    ∧ (∀ id, resp.statusCode < 400 → resp.idField = some id →
      send_async_generation_request_submit resp = Except.ok id)
    ∧ ∀ (responses : Nat → Response) (fuel : Nat),
      generate_image_to_video (some "") responses fuel = ⟨I2VOutcome.noId, 0, 0⟩ := by
  refine ⟨?_, ?_, ?_, fun responses fuel => rfl⟩
  · intro h
    unfold send_async_generation_request_submit
    simp [respOk]
    omega
  · intro h hid
    unfold send_async_generation_request_submit
    simp [respOk, h, hid]
  · intro id h hid
    unfold send_async_generation_request_submit
    simp [respOk, h, hid]

/-- Witness for C2 on a success response carrying the id abc. -/
theorem c2_submit_id_passthrough_witness :
    send_async_generation_request_submit ⟨200, "accepted", some "abc"⟩
      = Except.ok "abc" :=
  (c2_submit_id_passthrough ⟨200, "accepted", some "abc"⟩).2.2.1 "abc" (by decide) rfl

/-- Claim C3, as the spec states it, fails on the code: a 204 poll
response is neither 200 nor 202, yet the send_async_generation_request
loop classifies it as the complete result and returns it with its body,
rather than treating it as Failed. -/
theorem c3_counterexample :
    asyncPollClassify 204 = JobStatus.complete
    ∧ asyncPollClassify 204 ≠ JobStatus.failed
    ∧ (send_async_generation_request_poll (fun _ => ⟨204, "no content"⟩) 500).outcome
        = Except.ok ⟨204, "no content"⟩ := by
  refine ⟨by decide, by decide, ?_⟩
  unfold send_async_generation_request_poll send_async_generation_request_poll_from
  simp [respOk]

/-- Claim C3 (amended): the image-to-video variant derives the status
exactly as the claim states, Pending iff 202, Complete iff 200, Failed
otherwise; the send_async_generation_request variant is Pending iff 202
and Failed iff the code is 400 or above, but Complete for every other
code below 400, not only 200. -/
theorem c3_status_code_classification (s : Nat) :
    (i2vPollClassify s = JobStatus.pending ↔ s = 202)
    ∧ (i2vPollClassify s = JobStatus.complete ↔ s = 200)
    ∧ (i2vPollClassify s = JobStatus.failed ↔ (s ≠ 202 ∧ s ≠ 200))
    ∧ (asyncPollClassify s = JobStatus.pending ↔ s = 202)
    ∧ (asyncPollClassify s = JobStatus.complete ↔ (s < 400 ∧ s ≠ 202))
    ∧ (asyncPollClassify s = JobStatus.failed ↔ 400 ≤ s) := by
  unfold i2vPollClassify asyncPollClassify respOk
  split_ifs with h1 h2 h3 h4 <;> simp_all <;> omega

/-- If the async poll loop raises the timeout exception, the value in the
message is the timeout argument itself, whatever the response sequence
and start state were. -/
theorem poll_from_timeout_value (responses : Nat → Response) (timeout : Nat) :
    ∀ d e i x, timeout ≤ e + d →
      (send_async_generation_request_poll_from responses timeout e i).outcome
        = Except.error (JobError.timeoutExceeded x) → x = timeout := by
  intro d
  induction d with
  | zero =>
      intro e i x hle hout
      unfold send_async_generation_request_poll_from at hout
      by_cases h1 : respOk (responses i).statusCode
      · by_cases h2 : (responses i).statusCode = 202
        · have h3 : timeout < e + 10 := by omega
          simp [respOk, h2, h3] at hout
          omega
        · simp [h1, h2] at hout
      · simp [h1] at hout
  | succ d ih =>
      intro e i x hle hout
      unfold send_async_generation_request_poll_from at hout
      by_cases h1 : respOk (responses i).statusCode
      · by_cases h2 : (responses i).statusCode = 202
        · by_cases h3 : timeout < e + 10
          · simp [respOk, h2, h3] at hout
            omega
          · simp [respOk, h2, h3] at hout
            exact ih (e + 10) (i + 1) x (by omega) hout
        · simp [h1, h2] at hout
      · simp [h1] at hout

/-- Claim C4, as the spec states it, fails on the code: with a 25-second
budget and an all-202 endpoint the loop fails with 30 elapsed seconds on
the clock, but the raised error carries 25, the configured timeout, not
the elapsed 30. -/
theorem c4_counterexample :
    (send_async_generation_request_poll all202 25).outcome
        = Except.error (JobError.timeoutExceeded 25)
    ∧ (send_async_generation_request_poll all202 25).elapsed = 30
    ∧ (25 : Nat) ≠ 30 := by
  refine ⟨?_, ?_, by decide⟩ <;>
    simp [send_async_generation_request_poll,
      send_async_generation_request_poll_from, all202, respOk]

/-- Claim C4 (amended): when the poll loop of
send_async_generation_request fails with the timeout error, the duration
the error carries is always the configured timeout value, not the
measured elapsed time. -/
theorem c4_timeout_error_carries_config (responses : Nat → Response)
    (timeout x : Nat)
    (h : (send_async_generation_request_poll responses timeout).outcome
        = Except.error (JobError.timeoutExceeded x)) : x = timeout :=
  poll_from_timeout_value responses timeout timeout 0 0 x (by omega) h

/-- Witness for C4 at the constant-202 endpoint with a 25-second budget. -/
theorem c4_timeout_error_carries_config_witness :
    (send_async_generation_request_poll all202 25).outcome
        = Except.error (JobError.timeoutExceeded 25) ∧ (25 : Nat) = 25 := by
  have h : (send_async_generation_request_poll all202 25).outcome
      = Except.error (JobError.timeoutExceeded 25) := by
    simp [send_async_generation_request_poll,
      send_async_generation_request_poll_from, all202, respOk]
  exact ⟨h, c4_timeout_error_carries_config all202 25 25 h⟩

/-- Claim C5 (confirmed): when the first poll attempt returns 200, both
poll loops return the completed result at once, with a single poll
request, no sleep, and zero elapsed polling time. -/
theorem c5_first_poll_200_immediate (responses : Nat → Response)
    (timeout fuel : Nat) (h200 : (responses 0).statusCode = 200) :
    (send_async_generation_request_poll responses timeout).outcome
        = Except.ok (responses 0)
    ∧ (send_async_generation_request_poll responses timeout).sleeps = 0
    ∧ (send_async_generation_request_poll responses timeout).polls = 1
    ∧ (generate_image_to_video_poll responses (fuel + 1) 0).outcome
        = I2VOutcome.videoSaved (responses 0).body
    ∧ (generate_image_to_video_poll responses (fuel + 1) 0).sleeps = 0 := by
  unfold send_async_generation_request_poll send_async_generation_request_poll_from
    generate_image_to_video_poll
  simp [respOk, h200]

/-- Witness for C5 on an endpoint that completes immediately. -/
theorem c5_first_poll_200_immediate_witness :
    (send_async_generation_request_poll (fun _ => ⟨200, "artifact"⟩) 500).outcome
        = Except.ok ⟨200, "artifact"⟩
    ∧ (send_async_generation_request_poll (fun _ => ⟨200, "artifact"⟩) 500).sleeps = 0
    ∧ (send_async_generation_request_poll (fun _ => ⟨200, "artifact"⟩) 500).polls = 1
    ∧ (generate_image_to_video_poll (fun _ => ⟨200, "artifact"⟩) 1 0).outcome
        = I2VOutcome.videoSaved "artifact"
    ∧ (generate_image_to_video_poll (fun _ => ⟨200, "artifact"⟩) 1 0).sleeps = 0 :=
  c5_first_poll_200_immediate (fun _ => ⟨200, "artifact"⟩) 500 0 rfl

/-- Claim C6 (confirmed): when poll attempt k is reached, every earlier
attempt having returned 202 and, in the async variant, the budget not
being exhausted, and the endpoint answers 4xx/5xx, both poll loops fail
on that very attempt with the rejection error built from that response,
and issue exactly k + 1 poll requests in total. -/
theorem c6_rejection_stops_polling (responses : Nat → Response)
    (timeout k fuel : Nat)
    (h202 : ∀ j, j < k → (responses j).statusCode = 202)
    (hbad : 400 ≤ (responses k).statusCode)
    (hk : 10 * k ≤ timeout) (hfuel : k < fuel) :
    (send_async_generation_request_poll responses timeout).outcome
        = Except.error (JobError.remoteRejection (responses k).statusCode
            (responses k).body)
    ∧ (send_async_generation_request_poll responses timeout).polls = k + 1
    ∧ (generate_image_to_video_poll responses fuel 0).outcome
        = I2VOutcome.pollError (responses k).body
    ∧ (generate_image_to_video_poll responses fuel 0).polls = k + 1 := by
  have ha := poll_from_reject responses timeout k 0 0
      (fun j hj => by simpa using h202 j hj)
      (by simpa using hbad) (by omega)
  have h1 : (responses k).statusCode ≠ 202 := by omega
  have h2 : (responses k).statusCode ≠ 200 := by omega
  have hb := i2v_poll_reject responses k fuel 0 hfuel
      (fun j hj => by simpa using h202 j hj)
      (by simpa using h1) (by simpa using h2)
  simp only [Nat.zero_add] at ha hb
  unfold send_async_generation_request_poll
  rw [ha, hb]
  exact ⟨rfl, rfl, rfl, rfl⟩

/-- Witness for C6 on an endpoint that rejects on the first attempt. -/
theorem c6_rejection_stops_polling_witness :
    (send_async_generation_request_poll (fun _ => ⟨503, "busy"⟩) 500).outcome
        = Except.error (JobError.remoteRejection 503 "busy")
    ∧ (send_async_generation_request_poll (fun _ => ⟨503, "busy"⟩) 500).polls = 1
    ∧ (generate_image_to_video_poll (fun _ => ⟨503, "busy"⟩) 5 0).outcome
        = I2VOutcome.pollError "busy"
    ∧ (generate_image_to_video_poll (fun _ => ⟨503, "busy"⟩) 5 0).polls = 1 :=
  c6_rejection_stops_polling (fun _ => ⟨503, "busy"⟩) 500 0 5
    (fun j hj => absurd hj (Nat.not_lt_zero j)) (by decide) (by decide) (by decide)

/-- Claim C7, as the spec states it, fails on the code: params.pop at
lines 50-51 and 77-78 mutates the caller-supplied dict, so after the call
a params dict that held an image entry is no longer equal to what the
caller passed in. -/
theorem c7_counterexample :
    (send_generation_request_files demoParams none).2 ≠ demoParams
    ∧ (send_async_generation_request_files demoParams none).2 ≠ demoParams := by
  decide

/-- Claim C7 (amended): the submission helpers do mutate the
caller-supplied params mapping: params.pop removes the image and mask
entries, and what the caller observes afterwards is exactly the original
mapping with those two keys filtered out; entries under every other key
survive unchanged, and there is no further side effect in the model. -/
theorem c7_params_pop_removes_keys (params : Dict) (files0 : Option Dict) :
    (send_generation_request_files params files0).2 =
      params.filter (fun kv => kv.fst != "image" && kv.fst != "mask")
    ∧ (send_async_generation_request_files params files0).2 =
      params.filter (fun kv => kv.fst != "image" && kv.fst != "mask") := by
  constructor <;>
  · show (dictPop (dictPop params "image").2 "mask").2 = _
    rw [dictPop_snd, dictPop_snd, List.filter_filter]
    congr 1
    funext a
    exact Bool.and_comm _ _

/-- Claim C8 (confirmed): with no image, no mask and no files argument,
both submission helpers send the dict holding the single placeholder
empty part under the key none, so the set of parts sent is not empty. -/
theorem c8_placeholder_when_no_attachments (params : Dict) (files0 : Option Dict)
    (himg : presentNonEmpty (params.lookup "image") = false)
    (hmask : presentNonEmpty (params.lookup "mask") = false)
    (hfiles : files0 = none) :
    (send_generation_request_files params files0).1 = [("none", PyValue.str "")]
    ∧ (send_async_generation_request_files params files0).1 = [("none", PyValue.str "")]
    ∧ (send_generation_request_files params files0).1 ≠ []
    ∧ (send_async_generation_request_files params files0).1 ≠ [] := by
  subst hfiles
  have hi : params.lookup "image" = none
      ∨ params.lookup "image" = some (PyValue.str "") := by
    cases h : params.lookup "image" with
    | none => exact Or.inl rfl
    | some v =>
        rw [h] at himg
        simp [presentNonEmpty] at himg
        exact Or.inr (by rw [himg])
  have hm : (dictPop params "image").2.lookup "mask" = none
      ∨ (dictPop params "image").2.lookup "mask" = some (PyValue.str "") := by
    rw [dictPop_lookup_ne params "image" "mask" (by decide)]
    cases h : params.lookup "mask" with
    | none => exact Or.inl rfl
    | some v =>
        rw [h] at hmask
        simp [presentNonEmpty] at hmask
        exact Or.inr (by rw [hmask])
  rcases hi with hi | hi <;> rcases hm with hm | hm <;>
    simp [send_generation_request_files, send_async_generation_request_files,
      dictPop_fst, hi, hm, placeholderIfEmpty]

/-- Witness for C8 on a params dict holding only a prompt. -/
theorem c8_placeholder_when_no_attachments_witness :
    (send_generation_request_files [("prompt", PyValue.str "p")] none).1
        = [("none", PyValue.str "")]
    ∧ (send_async_generation_request_files [("prompt", PyValue.str "p")] none).1
        = [("none", PyValue.str "")]
    ∧ (send_generation_request_files [("prompt", PyValue.str "p")] none).1 ≠ []
    ∧ (send_async_generation_request_files [("prompt", PyValue.str "p")] none).1 ≠ [] :=
  c8_placeholder_when_no_attachments [("prompt", PyValue.str "p")] none
    (by decide) (by decide) rfl

/-- Claim C9 (confirmed): on a 4xx/5xx submission response, both
send_generation_request and send_async_generation_request raise the
rejection error carrying the status code and the response text verbatim. -/
theorem c9_submission_rejection_carries_status_body (resp : SubmitResponse)
    (r : Response) (h1 : 400 ≤ resp.statusCode) (h2 : 400 ≤ r.statusCode) :
    send_async_generation_request_submit resp
        = Except.error (JobError.remoteRejection resp.statusCode resp.text)
    ∧ send_generation_request_check r
        = Except.error (JobError.remoteRejection r.statusCode r.body) := by
  unfold send_async_generation_request_submit send_generation_request_check
  constructor <;> simp [respOk] <;> omega

/-- Witness for C9 on a 500 submission response and a 404 response. -/
theorem c9_submission_rejection_carries_status_body_witness :
    send_async_generation_request_submit ⟨500, "server error", none⟩
        = Except.error (JobError.remoteRejection 500 "server error")
    ∧ send_generation_request_check ⟨404, "not found"⟩
        = Except.error (JobError.remoteRejection 404 "not found") :=
  c9_submission_rejection_carries_status_body ⟨500, "server error", none⟩
    ⟨404, "not found"⟩ (by decide) (by decide)

/-- Claim C10 (confirmed): in generate_image_to_video a non-empty
returned id whose length is not exactly 64 characters is reported as an
error and the function returns with no poll request issued; conversely,
any run that issues at least one poll request had an id of length
exactly 64. -/
theorem c10_id_length_gate (id : String) (responses : Nat → Response) (fuel : Nat) :
    (id ≠ "" → id.length ≠ 64 →
      generate_image_to_video (some id) responses fuel
        = ⟨I2VOutcome.badIdLength id, 0, 0⟩)
    ∧ (∀ idF : Option String,
        (generate_image_to_video idF responses fuel).polls ≠ 0 →
        ∃ i, idF = some i ∧ i.length = 64) := by
  constructor
  · intro h1 h2
    unfold generate_image_to_video
    simp [h1, h2]
  · intro idF hp
    match idF with
    | none => simp [generate_image_to_video] at hp
    | some i =>
        refine ⟨i, rfl, ?_⟩
        by_cases he : i = ""
        · subst he
          simp [generate_image_to_video] at hp
        · by_cases hl : i.length = 64
          · exact hl
          · simp [generate_image_to_video, he, hl] at hp

/-- Witness for C10 on a short id. -/
theorem c10_id_length_gate_witness :
    generate_image_to_video (some "shortid") all202 5
        = ⟨I2VOutcome.badIdLength "shortid", 0, 0⟩ :=
  (c10_id_length_gate "shortid" all202 5).1 (by decide) (by decide)

end Marketer
